import Mathlib

/-!
Shallow embedding of `src/src/api/objects/ObjectAPI.js` (Open MCT object API).

The JavaScript state `this` of an `ObjectAPI` instance is embedded as the
structure `ObjectAPI` below, and every method is a pure function taking and,
when it mutates state, returning an `ObjectAPI` value.  JavaScript field
accesses on dynamically-typed argument objects are embedded through the types
`JsVal` (scalar field values: `undefined` or a string) and `FieldVal` (the
`identifier` field, which can additionally hold a nested identifier object;
the `ref` component models reference identity, which is what strict equality
compares on objects).  Strict equality on the modelled fragment never mixes
constructors.
-/

set_option autoImplicit false

namespace ObjectAPIModel

/-- A scalar JavaScript value as it appears in the `namespace` and `key`
fields of the objects this API handles: either `undefined` (absent field) or
a string. -/
inductive JsVal where
  | undef
  | str (s : String)
deriving DecidableEq

/-- A value of the `identifier` field of an object passed to this API: absent,
a string (the `ROOT` sentinel uses a string), or a nested identifier object
`\x7b namespace, key \x7d`.  `ref` models the object reference for strict
equality; distinct object instances carry distinct refs. -/
inductive FieldVal where
  | undef
  | str (s : String)
  | obj (ref : Nat) (ns k : JsVal)
deriving DecidableEq

/-- JavaScript strict equality `===` on scalar field values:
`undefined === undefined`, and strings compare by content. -/
def strictEqV : JsVal → JsVal → Bool
  | JsVal.undef, JsVal.undef => true
  | JsVal.str s, JsVal.str t => s == t
  | _, _ => false

/-- JavaScript strict equality `===` on `identifier` field values; two
objects are strictly equal exactly when they are the same reference. -/
def strictEqF : FieldVal → FieldVal → Bool
  | FieldVal.undef, FieldVal.undef => true
  | FieldVal.str s, FieldVal.str t => s == t
  | FieldVal.obj r _ _, FieldVal.obj r' _ _ => r == r'
  | _, _ => false

/-- JavaScript property-key coercion: `o[k]` coerces `k` to a string, so an
`undefined` index reads the property literally named `"undefined"`. -/
def jsPropKey : JsVal → String
  | JsVal.undef => "undefined"
  | JsVal.str s => s

/-- Any object handed to the API: an identifier of the documented shape
`\x7b namespace, key \x7d` (then `identifier := FieldVal.undef`), a root
sentinel (then `identifier := FieldVal.str "ROOT"`), or a domain object
(then `identifier` holds the embedded identifier object and the top-level
`namespace`/`key` fields are `undef`).  The code only ever reads the
`identifier` and `namespace` fields; `key` is carried so that claims about
it can be stated. -/
structure JsObj where
  identifier : FieldVal
  «namespace» : JsVal
  key : JsVal
deriving DecidableEq

/-- The synthetic root object literal built by the root provider. -/
structure RootObject where
  name : String
  type : String
  composition : List JsObj
deriving DecidableEq

/-- A value returned by a provider method: a promise resolved with the root
object literal (`Promise.resolve(...)` in the source), a rejected promise, or
any other backend-specific value (an opaque result handle), tagged by a
number so distinct results are distinguishable. -/
inductive JsValue where
  | promiseResolved (o : RootObject)
  | promiseRejected (msg : String)
  | other (n : Nat)
deriving DecidableEq

/-- A provider: a capability record whose three methods are each optionally
present (`undefined` method = `none`).  A present method is a function from
the full JavaScript `arguments` list to its result. -/
structure Provider where
  get : Option (List JsObj → JsValue)
  save : Option (List JsObj → JsValue)
  delete : Option (List JsObj → JsValue)

/-- The mutable state of one `ObjectAPI` instance: the namespace-to-provider
map (`this.providers`, a JavaScript object, embedded as an association list
with unique keys), the root composition registry (`this.rootRegistry`), and
the optional fallback provider (`this.fallbackProvider`, `undefined` until
`_supersecretSetFallbackProvider` is called). -/
structure ObjectAPI where
  providers : List (String × Provider)
  rootRegistry : List JsObj
  fallbackProvider : Option Provider

/-- The constructor `function ObjectAPI()`: empty provider map, empty root
registry, no fallback provider. -/
def ObjectAPI.new : ObjectAPI :=
  { providers := [], rootRegistry := [], fallbackProvider := none }

/-- Property read `this.providers[ns]` on the provider map. -/
def lookupProv : List (String × Provider) → String → Option Provider
  | [], _ => none
  | (n, p) :: rest, ns => if n = ns then some p else lookupProv rest ns

/-- Property write `this.providers[ns] = p`: replaces an existing binding for
`ns`, otherwise adds one. -/
def insertProv : List (String × Provider) → String → Provider → List (String × Provider)
  | [], ns, p => [(ns, p)]
  | (n, q) :: rest, ns, p =>
    if n = ns then (ns, p) :: rest else (n, q) :: insertProv rest ns p

/-- The object literal the root provider resolves with:
`\x7b name: 'The root object', type: 'root', composition: this.rootRegistry \x7d`,
reading `this.rootRegistry` at call time. -/
def rootObject (s : ObjectAPI) : RootObject :=
  { name := "The root object", type := "root", composition := s.rootRegistry }

/-- `this.rootProvider`: implements only `get`, which ignores its arguments
and returns `Promise.resolve` of the synthetic root object built from the
current registry (the source binds `this`, so each call reads current
state). -/
def rootProviderOf (s : ObjectAPI) : Provider :=
  { get := some (fun _ => JsValue.promiseResolved (rootObject s)),
    save := none,
    delete := none }

/-- `ObjectAPI.prototype.getProvider`: root provider when
`key.identifier === 'ROOT'`, else `this.providers[key.namespace] ||
this.fallbackProvider`. -/
def getProvider (s : ObjectAPI) (key : JsObj) : Option Provider :=
  if strictEqF key.identifier (FieldVal.str "ROOT") then
    some (rootProviderOf s)
  else
    match lookupProv s.providers (jsPropKey key.«namespace») with
    | some p => some p
    | none => s.fallbackProvider

/-- `ObjectAPI.prototype.addProvider`: `this.providers[namespace] = provider`. -/
def addProvider (s : ObjectAPI) (ns : String) (p : Provider) : ObjectAPI :=
  { s with providers := insertProv s.providers ns p }

/-- `ObjectAPI.prototype._supersecretSetFallbackProvider`. -/
def supersecretSetFallbackProvider (s : ObjectAPI) (p : Provider) : ObjectAPI :=
  { s with fallbackProvider := some p }

/-- The three dispatched method names. -/
inductive Method where
  | save
  | delete
  | get
deriving DecidableEq

/-- The string name of a dispatched method, as used in the error message. -/
def methodName : Method → String
  | Method.save => "save"
  | Method.delete => "delete"
  | Method.get => "get"

/-- Property read `provider[method]`. -/
def providerMethod (p : Provider) : Method → Option (List JsObj → JsValue)
  | Method.save => p.save
  | Method.delete => p.delete
  | Method.get => p.get

/-- The observable outcome of one dispatcher call: a synchronous `throw`
(with the `Error` message) or a value returned to the caller. -/
inductive DispatchResult where
  | thrown (msg : String)
  | returned (v : JsValue)
deriving DecidableEq

/-- The dispatcher installed by the `forEach` over `['save','delete','get']`:
`key = arguments[0]`; resolve via `getProvider(key)`; missing provider and
missing method each throw synchronously; otherwise
`provider[method].apply(provider, arguments)`. -/
def dispatch (s : ObjectAPI) (m : Method) (arg0 : JsObj) (rest : List JsObj) :
    DispatchResult :=
  match getProvider s arg0 with
  | none => DispatchResult.thrown "No Provider Matched"
  | some provider =>
    match providerMethod provider m with
    | none =>
      DispatchResult.thrown ("Provider does not support [" ++ methodName m ++ "].")
    | some f => DispatchResult.returned (f (arg0 :: rest))

/-- `ObjectAPI.prototype.addRoot`: `this.rootRegistry.unshift(key)`. -/
def addRoot (s : ObjectAPI) (key : JsObj) : ObjectAPI :=
  { s with rootRegistry := key :: s.rootRegistry }

/-- `ObjectAPI.prototype.removeRoot`: keeps exactly the entries `k` with
`k.identifier !== key.identifier || k.namespace !== key.namespace`. -/
def removeRoot (s : ObjectAPI) (key : JsObj) : ObjectAPI :=
  { s with
    rootRegistry := s.rootRegistry.filter (fun k =>
      !(strictEqF k.identifier key.identifier) ||
        !(strictEqV k.«namespace» key.«namespace»)) }

end ObjectAPIModel

namespace ObjectAPIModel

/-! Concrete providers, identifiers and states used by witnesses and
counterexamples. -/

/-- A provider implementing only `get`. -/
def pGetOnly : Provider :=
  { get := some (fun _ => JsValue.other 1), save := none, delete := none }

/-- A provider implementing `save` and `delete` but not `get`. -/
def pSaveDelete : Provider :=
  { get := none,
    save := some (fun _ => JsValue.other 2),
    delete := some (fun _ => JsValue.other 3) }

/-- A provider implementing only `save`; its `save` returns the opaque
result handle `JsValue.other 7`. -/
def pSaveOnly : Provider :=
  { get := none, save := some (fun _ => JsValue.other 7), delete := none }

/-- A root sentinel key: its `identifier` field is the string `"ROOT"`. -/
def kRootW : JsObj :=
  { identifier := FieldVal.str "ROOT", «namespace» := JsVal.undef, key := JsVal.undef }

/-- An identifier of the documented shape in namespace `n` with key `x`. -/
def kNW : JsObj :=
  { identifier := FieldVal.undef, «namespace» := JsVal.str "n", key := JsVal.str "x" }

/-- An identifier in a namespace with no registered provider. -/
def kOtherW : JsObj :=
  { identifier := FieldVal.undef, «namespace» := JsVal.str "other", key := JsVal.str "y" }

/-- Documented-shape identifier, namespace `n`, key `a`. -/
def idNA : JsObj :=
  { identifier := FieldVal.undef, «namespace» := JsVal.str "n", key := JsVal.str "a" }

/-- Documented-shape identifier, namespace `n`, key `b`. -/
def idNB : JsObj :=
  { identifier := FieldVal.undef, «namespace» := JsVal.str "n", key := JsVal.str "b" }

/-- Documented-shape identifier, namespace `m`, key `b`. -/
def idMB : JsObj :=
  { identifier := FieldVal.undef, «namespace» := JsVal.str "m", key := JsVal.str "b" }

/-- Documented-shape identifier, namespace `n`, key `z`. -/
def idNZ : JsObj :=
  { identifier := FieldVal.undef, «namespace» := JsVal.str "n", key := JsVal.str "z" }

/-- A domain object of the documented shape: its `identifier` field holds the
embedded identifier object with namespace `n` and key `x`, and it has no
top-level `namespace` or `key` field. -/
def dObjW : JsObj :=
  { identifier := FieldVal.obj 0 (JsVal.str "n") (JsVal.str "x"),
    «namespace» := JsVal.undef, key := JsVal.undef }

/-- A state with only `pGetOnly` registered under namespace `n`. -/
def sW : ObjectAPI :=
  { providers := [("n", pGetOnly)], rootRegistry := [], fallbackProvider := none }

/-- A state with only `pSaveDelete` registered under namespace `n`. -/
def sWsd : ObjectAPI :=
  { providers := [("n", pSaveDelete)], rootRegistry := [], fallbackProvider := none }

/-- A state with only `pSaveOnly` registered under namespace `n`. -/
def sC5 : ObjectAPI :=
  { providers := [("n", pSaveOnly)], rootRegistry := [], fallbackProvider := none }

/-! Helper lemmas. -/

/-- Strict equality of an `identifier` field value against a string literal
holds exactly on the structurally equal string. -/
theorem strictEqF_str_iff (x : FieldVal) (t : String) :
    strictEqF x (FieldVal.str t) = true ↔ x = FieldVal.str t := by
  cases x <;> simp [strictEqF]

/-- After `providers[ns] = p`, reading `providers[ns]` yields `p`. -/
theorem lookupProv_insertProv_self (l : List (String × Provider)) (ns : String)
    (p : Provider) : lookupProv (insertProv l ns p) ns = some p := by
  induction l with
  | nil => simp [insertProv, lookupProv]
  | cons hd tl ih =>
    obtain ⟨n, q⟩ := hd
    by_cases h : n = ns
    · subst h; simp [insertProv, lookupProv]
    · simp [insertProv, lookupProv, h, ih]

/-- After `providers[ns] = p`, reading any other property is unchanged. -/
theorem lookupProv_insertProv_other (l : List (String × Provider)) (ns ns' : String)
    (p : Provider) (h : ns' ≠ ns) :
    lookupProv (insertProv l ns p) ns' = lookupProv l ns' := by
  induction l with
  | nil => simp [insertProv, lookupProv, Ne.symm h]
  | cons hd tl ih =>
    obtain ⟨n, q⟩ := hd
    by_cases hn : n = ns
    · subst hn; simp [insertProv, lookupProv, Ne.symm h]
    · simp [insertProv, lookupProv, hn, ih]

end ObjectAPIModel

namespace ObjectAPIModel

/-- C1: for every key passed to `getProvider`, the result follows the
priority order: if the `identifier` field of the key strictly equals the
string `"ROOT"`, the root provider is returned regardless of the registered
namespace providers; otherwise the provider registered under the key
namespace is returned when one exists; otherwise the fallback provider
(`undefined`, i.e. `none`, when no fallback was set). -/
theorem getProvider_priority (s : ObjectAPI) (key : JsObj) :
    (key.identifier = FieldVal.str "ROOT" →
      getProvider s key = some (rootProviderOf s)) ∧
    (key.identifier ≠ FieldVal.str "ROOT" →
      (∀ p, lookupProv s.providers (jsPropKey key.«namespace») = some p →
        getProvider s key = some p) ∧
      (lookupProv s.providers (jsPropKey key.«namespace») = none →
        getProvider s key = s.fallbackProvider)) := by
  constructor
  · intro h
    unfold getProvider
    rw [if_pos ((strictEqF_str_iff _ _).mpr h)]
  · intro h
    have hc : ¬ strictEqF key.identifier (FieldVal.str "ROOT") = true :=
      fun hb => h ((strictEqF_str_iff _ _).mp hb)
    constructor
    · intro p hp
      unfold getProvider
      rw [if_neg hc, hp]
    · intro hn
      unfold getProvider
      rw [if_neg hc, hn]

/-- Witness for C1: in a state with a provider registered under namespace
`n`, a key whose `identifier` field is `"ROOT"` resolves to the root
provider, a key in namespace `n` resolves to the registered provider, and a
key in an unregistered namespace resolves to the fallback slot. -/
theorem getProvider_priority_witness :
    getProvider sW kRootW = some (rootProviderOf sW) ∧
    getProvider sW kNW = some pGetOnly ∧
    getProvider sW kOtherW = sW.fallbackProvider := by
  refine ⟨(getProvider_priority sW kRootW).1 rfl, ?_, ?_⟩
  · exact ((getProvider_priority sW kNW).2 (by decide)).1 pGetOnly rfl
  · exact ((getProvider_priority sW kOtherW).2 (by decide)).2 rfl

/-- C2: when the `identifier` field of the first argument is not the root
sentinel, its namespace has no registered provider, and no fallback provider
is set, each of `get`, `save` and `delete` throws the `No Provider Matched`
error synchronously; in particular the dispatcher never returns any value,
so it never returns a rejected asynchronous result handle. -/
theorem dispatch_noProviderMatched (s : ObjectAPI) (m : Method) (arg0 : JsObj)
    (rest : List JsObj)
    (hroot : arg0.identifier ≠ FieldVal.str "ROOT")
    (hns : lookupProv s.providers (jsPropKey arg0.«namespace») = none)
    (hfb : s.fallbackProvider = none) :
    dispatch s m arg0 rest = DispatchResult.thrown "No Provider Matched" ∧
    ∀ v : JsValue, dispatch s m arg0 rest ≠ DispatchResult.returned v := by
  have hgp : getProvider s arg0 = none := by
    unfold getProvider
    rw [if_neg (fun hb => hroot ((strictEqF_str_iff _ _).mp hb)), hns]
    exact hfb
  have heq : dispatch s m arg0 rest = DispatchResult.thrown "No Provider Matched" := by
    unfold dispatch
    rw [hgp]
  exact ⟨heq, fun v hv => by rw [heq] at hv; exact DispatchResult.noConfusion hv⟩

/-- Witness for C2: on a fresh state (no providers, no fallback), `get` on an
identifier in namespace `other` throws `No Provider Matched`. -/
theorem dispatch_noProviderMatched_witness :
    dispatch ObjectAPI.new Method.get kOtherW [] =
      DispatchResult.thrown "No Provider Matched" :=
  (dispatch_noProviderMatched ObjectAPI.new Method.get kOtherW []
    (by decide) rfl rfl).1

/-- C3: when the resolved provider omits the requested method, the
dispatcher throws synchronously with a message naming the method,
independently of which other methods the provider implements (the provider
is arbitrary here; the witness exercises one implementing the other two). -/
theorem dispatch_unsupportedOperation (s : ObjectAPI) (m : Method) (arg0 : JsObj)
    (rest : List JsObj) (p : Provider)
    (hp : getProvider s arg0 = some p)
    (hm : providerMethod p m = none) :
    dispatch s m arg0 rest =
      DispatchResult.thrown ("Provider does not support [" ++ methodName m ++ "].") := by
  simp only [dispatch, hp, hm]

/-- Witness for C3: with a provider under namespace `n` implementing `save`
and `delete` but not `get`, calling `get` on an identifier in `n` throws the
message naming `get`. -/
theorem dispatch_unsupportedOperation_witness :
    dispatch sWsd Method.get kNW [] =
      DispatchResult.thrown "Provider does not support [get]." :=
  dispatch_unsupportedOperation sWsd Method.get kNW [] pSaveDelete rfl rfl

end ObjectAPIModel

namespace ObjectAPIModel

/-- C4 (code behavior at the failing input): with the registry holding the
single documented-shape identifier `(n, a)`, `removeRoot` applied to the
documented-shape identifier `(n, b)` — same namespace, different key —
removes the entry, leaving the registry empty, because the filter compares
the `identifier` fields (both `undefined`) and the `namespace` fields, never
the `key` fields. -/
theorem removeRoot_dropsDifferentKey_bug :
    (removeRoot { ObjectAPI.new with rootRegistry := [idNA] } idNB).rootRegistry
      = [] := by
  decide

/-- C5 counterexample: with `pSaveOnly` registered under namespace `n` and
no fallback, routing via the identifier embedded in the domain object (as
the claim states) would resolve `pSaveOnly` and return its `save` result
`JsValue.other 7` verbatim; the code instead passes the domain object itself
to `getProvider` (its top-level `namespace` field is `undefined`) and throws
`No Provider Matched`. -/
theorem dispatch_embeddedIdentifierRouting_cex :
    dispatch sC5 Method.save dObjW [] =
      DispatchResult.thrown "No Provider Matched" ∧
    dispatch sC5 Method.save dObjW [] ≠
      DispatchResult.returned (JsValue.other 7) := by
  decide

/-- C5 (amended): for each of `get`, `save` and `delete`, the routing key
resolved through `getProvider` is the first argument itself — the identifier
for `get`, the whole domain object (not its embedded identifier) for `save`
and `delete` — and once a provider implementing the method resolves, the
full original argument list is forwarded to the method and its result is
returned verbatim. -/
theorem dispatch_routesOnFirstArgument (s : ObjectAPI) (m : Method) (arg0 : JsObj)
    (rest : List JsObj) (p : Provider) (f : List JsObj → JsValue)
    (hp : getProvider s arg0 = some p)
    (hf : providerMethod p m = some f) :
    dispatch s m arg0 rest = DispatchResult.returned (f (arg0 :: rest)) := by
  simp only [dispatch, hp, hf]

/-- Witness for the amended C5: `save` on an identifier-shaped first argument
in namespace `n` forwards to the `save` of the provider registered under `n`
and returns its result. -/
theorem dispatch_routesOnFirstArgument_witness :
    dispatch sWsd Method.save kNW [] = DispatchResult.returned (JsValue.other 2) :=
  dispatch_routesOnFirstArgument sWsd Method.save kNW [] pSaveDelete
    (fun _ => JsValue.other 2) rfl rfl

/-- C6: for every state and every argument list, the root provider `get`
ignores its input (any two argument lists give the same result) and returns
a resolved promise — never a rejection — carrying the object named
`The root object` of type `root` whose `composition` is the root registry of
the state at call time; in particular an `addRoot` performed before the call
is visible in the composition. -/
theorem rootProvider_get_live (s : ObjectAPI) (args args' : List JsObj) (k : JsObj) :
    ∃ f, (rootProviderOf s).get = some f ∧
      f args = JsValue.promiseResolved (rootObject s) ∧
      f args = f args' ∧
      (rootObject s).name = "The root object" ∧
      (rootObject s).type = "root" ∧
      (rootObject s).composition = s.rootRegistry ∧
      (rootObject (addRoot s k)).composition = k :: s.rootRegistry :=
  ⟨fun _ => JsValue.promiseResolved (rootObject s), rfl, rfl, rfl, rfl, rfl, rfl, rfl⟩

/-- C7 (code behavior at the failing input): after `addRoot (n, a)` then
`addRoot (n, b)` the composition reads `[(n, b), (n, a)]` (most recent
first) as claimed, but the subsequent `removeRoot (n, a)` removes both
entries — not only `(n, a)` — because removal matches on the namespace
alone for documented-shape identifiers, yielding `[]` instead of the claimed
`[(n, b)]`. -/
theorem rootComposition_addRoot_removeRoot_bug :
    (addRoot (addRoot ObjectAPI.new idNA) idNB).rootRegistry = [idNB, idNA] ∧
    (removeRoot (addRoot (addRoot ObjectAPI.new idNA) idNB) idNA).rootRegistry
      = [] := by
  decide

/-- C8: `addProvider` makes the given provider the one resolved for the
given namespace (replacing any prior registration), leaves the registration
of every other namespace unchanged, and changes neither the fallback
provider nor the root composition registry. -/
theorem addProvider_replaces_and_frames (s : ObjectAPI) (ns : String) (p : Provider) :
    lookupProv (addProvider s ns p).providers ns = some p ∧
    (∀ ns', ns' ≠ ns →
      lookupProv (addProvider s ns p).providers ns' = lookupProv s.providers ns') ∧
    (addProvider s ns p).fallbackProvider = s.fallbackProvider ∧
    (addProvider s ns p).rootRegistry = s.rootRegistry :=
  ⟨lookupProv_insertProv_self s.providers ns p,
   fun ns' h => lookupProv_insertProv_other s.providers ns ns' p h,
   rfl, rfl⟩

/-- Witness for C8: registering `pSaveDelete` over the existing registration
for namespace `n` replaces it, leaves namespace `other` unchanged, and
leaves the fallback provider and root registry untouched. -/
theorem addProvider_replaces_and_frames_witness :
    lookupProv (addProvider sW "n" pSaveDelete).providers "n" = some pSaveDelete ∧
    lookupProv (addProvider sW "n" pSaveDelete).providers "other" =
      lookupProv sW.providers "other" ∧
    (addProvider sW "n" pSaveDelete).fallbackProvider = sW.fallbackProvider ∧
    (addProvider sW "n" pSaveDelete).rootRegistry = sW.rootRegistry :=
  ⟨(addProvider_replaces_and_frames sW "n" pSaveDelete).1,
   (addProvider_replaces_and_frames sW "n" pSaveDelete).2.1 "other" (by decide),
   (addProvider_replaces_and_frames sW "n" pSaveDelete).2.2.1,
   (addProvider_replaces_and_frames sW "n" pSaveDelete).2.2.2⟩

/-- C9: the root provider implements only `get`, so for every key whose
`identifier` field equals the string `"ROOT"`, dispatching `save` or
`delete` throws the synchronous `Provider does not support [save].` or
`Provider does not support [delete].` error, in every state — no namespace
or fallback provider is consulted. -/
theorem dispatch_rootKey_saveDelete_unsupported (s : ObjectAPI) (arg0 : JsObj)
    (rest : List JsObj) (m : Method)
    (hroot : arg0.identifier = FieldVal.str "ROOT")
    (hm : m = Method.save ∨ m = Method.delete) :
    dispatch s m arg0 rest =
      DispatchResult.thrown ("Provider does not support [" ++ methodName m ++ "].") := by
  have hgp : getProvider s arg0 = some (rootProviderOf s) := by
    unfold getProvider
    rw [if_pos ((strictEqF_str_iff _ _).mpr hroot)]
  rcases hm with h | h <;> subst h <;>
    simp [dispatch, hgp, providerMethod, rootProviderOf, methodName]

/-- Witness for C9: on a fresh state, `save` on a key whose `identifier`
field is `"ROOT"` throws the unsupported-operation error naming `save`. -/
theorem dispatch_rootKey_saveDelete_unsupported_witness :
    dispatch ObjectAPI.new Method.save kRootW [] =
      DispatchResult.thrown "Provider does not support [save]." :=
  dispatch_rootKey_saveDelete_unsupported ObjectAPI.new kRootW [] Method.save
    rfl (Or.inl rfl)

/-- C10: when the argument and every registry entry have the documented
identifier shape (the `identifier` field absent, i.e. `undefined`, on both
sides), `removeRoot` keeps exactly the entries whose `namespace` field
differs from that of the argument — it removes every entry in the
namespace of the argument regardless of the `key` fields, which are never
compared. -/
theorem removeRoot_matchesNamespaceOnly (s : ObjectAPI) (key : JsObj)
    (hkey : key.identifier = FieldVal.undef)
    (hreg : ∀ k ∈ s.rootRegistry, k.identifier = FieldVal.undef) :
    (removeRoot s key).rootRegistry =
      s.rootRegistry.filter (fun k => !(strictEqV k.«namespace» key.«namespace»)) := by
  unfold removeRoot
  refine List.filter_congr ?_
  intro k hk
  rw [hkey, hreg k hk]
  simp [strictEqF]

/-- Witness for C10: removing the documented-shape identifier `(n, z)` from
a registry holding `(n, a)` and `(m, b)` removes `(n, a)` — whose key `a`
differs from `z` — and keeps only the entry in namespace `m`. -/
theorem removeRoot_matchesNamespaceOnly_witness :
    (removeRoot { ObjectAPI.new with rootRegistry := [idNA, idMB] } idNZ).rootRegistry
      = [idNA, idMB].filter (fun k => !(strictEqV k.«namespace» idNZ.«namespace»)) :=
  removeRoot_matchesNamespaceOnly
    { ObjectAPI.new with rootRegistry := [idNA, idMB] } idNZ rfl (by decide)

end ObjectAPIModel
